import Mathlib

/-!
Shallow embedding of pyre's zbeacon module (src/pyre/zbeacon.py): the
ZBeacon facade and the ZBeaconAgent discovery loop.  Bytes are modelled
as List Nat, wall clock values (Python time.time(), in seconds) as ℤ,
and the agent's mutable attributes as an explicit AgentState record.
Fallible socket operations are passed in as Except values; exceptions
that escape a method are returned as Except.error.
-/

set_option linter.unusedVariables false
set_option maxRecDepth 8192

/-- Bytes objects (payloads, filters, datagrams). -/
abbrev Bytes := List Nat

/-- BEACON_MAX = 255, max size of beacon data (zbeacon.py line 40). -/
def BEACON_MAX : Nat := 255

/-- Python truthiness of an optional bytes value: None and b'' are falsy
(used by `if self.transmit:` and `if self._filter:`). -/
def pyTruthy : Option Bytes → Bool
  | none => false
  | some l => !l.isEmpty

deriving instance DecidableEq for Except

/-- Exceptions that can escape the agent's methods. -/
inductive PyError
  | nameError
  | osError
deriving DecidableEq, Repr

/-- Messages the agent sends over the control pipe back to the facade:
the "OK" termination acknowledgment and peer announcements
(peername frame followed by the datagram frame). -/
inductive PipeMsg
  | ok
  | announcement (peer : String) (data : Bytes)
deriving DecidableEq, Repr

/-- The control commands dispatched by ZBeaconAgent.api_command
(zbeacon.py lines 318-350).  INTERVAL carries the value after the
int() conversion of line 326. -/
inductive Command
  | INTERVAL (n : Int)
  | NOECHO
  | PUBLISH (payload : Bytes)
  | SILENCE
  | SUBSCRIBE (f : Bytes)
  | UNSUBSCRIBE
  | TERM
  | UNKNOWN (s : String)
deriving DecidableEq, Repr

/-- Does a command store a non-empty transmit payload?  Only PUBLISH
with a non-empty payload makes `self.transmit` truthy. -/
def Command.publishesNonEmpty : Command → Bool
  | .PUBLISH p => !p.isEmpty
  | _ => false

/-- The mutable attributes of ZBeaconAgent (zbeacon.py lines 115-144).
`filterF` models `self._filter` (the attribute read by recv);
`hasFilterAttr` records whether the distinct attribute `self.filter`
has been created (UNSUBSCRIBE at line 343 assigns `self.filter = None`,
a different attribute from `self._filter`). -/
structure AgentState where
  interval : ℤ
  enabled : Bool
  noecho : Bool
  terminated : Bool
  ping_at : ℤ
  transmit : Option Bytes
  filterF : Option Bytes
  hasFilterAttr : Bool
deriving DecidableEq, Repr

/-- Attribute values set by ZBeaconAgent.__init__ (lines 123-136):
interval = INTERVAL_DFLT = 1.0 (seconds), noecho = True,
ping_at = 0, transmit = None, _filter = self.transmit = None. -/
def initState : AgentState :=
  { interval := 1
  , enabled := true
  , noecho := true
  , terminated := false
  , ping_at := 0
  , transmit := none
  , filterF := none
  , hasFilterAttr := false }

/-- ZBeaconAgent.api_command (lines 318-350), as a function of the
current time (time.time() at line 334), the state and the decoded
command.  Returns the new state and the pipe messages sent. -/
def ZBeaconAgent.api_command (now : ℤ) (st : AgentState) (cmd : Command) :
    AgentState × List PipeMsg :=
  match cmd with
  | .INTERVAL n => ({ st with interval := (n : ℤ) }, [])
  | .NOECHO => ({ st with noecho := true }, [])
  | .PUBLISH p => ({ st with transmit := some p, ping_at := now }, [])
  | .SILENCE => ({ st with transmit := none }, [])
  | .SUBSCRIBE f => ({ st with filterF := some f }, [])
  | .UNSUBSCRIBE => ({ st with hasFilterAttr := true }, [])
  | .TERM => ({ st with terminated := true }, [PipeMsg.ok])
  | .UNKNOWN s => (st, [])

/-- Outcome of one receive-and-filter cycle. -/
inductive RecvOutcome
  | discarded
  | delivered (peer : String) (data : Bytes)
deriving DecidableEq, Repr

/-- The tail of ZBeaconAgent.recv (lines 381-388): the echo check
followed by delivery on the pipe. -/
def recvEcho (st : AgentState) (peer : String) (data : Bytes) :
    Except PyError RecvOutcome :=
  if st.noecho then
    if st.transmit = some data then Except.ok RecvOutcome.discarded
    else Except.ok (RecvOutcome.delivered peer data)
  else Except.ok (RecvOutcome.delivered peer data)

/-- ZBeaconAgent.recv (lines 363-388).  `read` is the result of
`self._udp_sock.recvfrom(BEACON_MAX)`: either (peername, data) or a
socket.error.  On socket.error the handler only logs (line 368) and
control falls through to `peername = addr[0]` (line 371) with `addr`
unbound, so a NameError (UnboundLocalError) is raised and propagates
out of recv. -/
def ZBeaconAgent.recv (st : AgentState) (read : Except Unit (String × Bytes)) :
    Except PyError RecvOutcome :=
  match read with
  | .error _ => Except.error PyError.nameError
  | .ok (peer, data) =>
    if pyTruthy st.filterF then
      let f := st.filterF.getD []
      if f.length < data.length then
        if data.take f.length ≠ f then Except.ok RecvOutcome.discarded
        else recvEcho st peer data
      else recvEcho st peer data
    else recvEcho st peer data

/-- Result of ZBeaconAgent.send (lines 352-361): how many sendto calls
were made, whether _init_socket was re-run, and the outcome (the
error of a failed second sendto propagates). -/
structure SendRes where
  attempts : Nat
  reinit : Bool
  outcome : Except Unit Unit
deriving DecidableEq, Repr

/-- ZBeaconAgent.send (lines 352-361).  a1 and a2 are the outcomes the
two possible `sendto` calls would have: on an OSError from the first,
the agent logs, re-runs _init_socket and retries once; a second
failure is not caught. -/
def ZBeaconAgent.send (a1 a2 : Except Unit Unit) : SendRes :=
  match a1 with
  | .ok _ => ⟨1, false, Except.ok ()⟩
  | .error _ => ⟨2, true, a2⟩

/-- The poll timeout computed at the top of each run() iteration
(lines 399-403): -1 (block indefinitely) when `self.transmit` is falsy,
otherwise max(0, ping_at - now).  Units are seconds. -/
def loopTimeout (st : AgentState) (now : ℤ) : ℤ :=
  if pyTruthy st.transmit then
    let t := st.ping_at - now
    if t < 0 then 0 else t
  else -1

/-- The argument actually handed to `self.poller.poll` (line 405):
`timeout * 1000`, since zmq's poll takes milliseconds while ping_at
and time.time() are in seconds.  A negative value blocks forever. -/
def pollArgMs (st : AgentState) (now : ℤ) : ℤ :=
  loopTimeout st now * 1000

/-- The external inputs of one iteration of ZBeaconAgent.run
(lines 398-418): the successive time.time() readings, poll readiness
of the pipe and the UDP socket, the pending command and UDP read
result, and the outcomes the two possible sendto calls would have. -/
structure LoopIn where
  nowPoll : ℤ
  pipeReady : Bool
  cmd : Command
  nowCmd : ℤ
  udpReady : Bool
  sockRead : Except Unit (String × Bytes)
  nowSend : ℤ
  sendA1 : Except Unit Unit
  sendA2 : Except Unit Unit
  nowResched : ℤ
deriving DecidableEq, Repr

/-- One iteration of the run() while-loop (lines 398-418): process at
most one api command, one receive cycle, then the timed send, in
source order.  Returns (new state and break flag, or the exception
escaping the iteration), the pipe messages sent during the iteration,
and the datagram actually delivered to the UDP socket, if any. -/
def loopIter (st : AgentState) (i : LoopIn) :
    Except PyError (AgentState × Bool) × List PipeMsg × Option Bytes :=
  let p1 := if i.pipeReady then ZBeaconAgent.api_command i.nowCmd st i.cmd else (st, [])
  let st1 := p1.1
  let msgs1 := p1.2
  match (if i.udpReady then some (ZBeaconAgent.recv st1 i.sockRead) else none) with
  | some (.error e) => (Except.error e, msgs1, none)
  | r =>
    let msgs2 := msgs1 ++
      (match r with
       | some (.ok (RecvOutcome.delivered p d)) => [PipeMsg.announcement p d]
       | _ => [])
    if pyTruthy st1.transmit = true ∧ st1.ping_at ≤ i.nowSend then
      match (ZBeaconAgent.send i.sendA1 i.sendA2).outcome with
      | .error _ => (Except.error PyError.osError, msgs2, none)
      | .ok _ =>
        let st2 := { st1 with ping_at := i.nowResched + st1.interval }
        (Except.ok (st2, st2.terminated), msgs2, some (st1.transmit.getD []))
    else
      (Except.ok (st1, st1.terminated), msgs2, none)

/-- The run() while-loop consuming a finite stream of iteration inputs:
stops at the first break or escaping exception.  Accumulates the pipe
messages and the UDP datagrams sent. -/
def loopRun (st : AgentState) : List LoopIn →
    Except PyError AgentState × List PipeMsg × List Bytes
  | [] => (Except.ok st, [], [])
  | i :: rest =>
    match loopIter st i with
    | (.error e, msgs, sent) => (Except.error e, msgs, sent.toList)
    | (.ok (st1, brk), msgs, sent) =>
      if brk then (Except.ok st1, msgs, sent.toList)
      else
        let t := loopRun st1 rest
        (t.1, msgs ++ t.2.1, sent.toList ++ t.2.2)

/-- A multipart frame on the facade-to-agent pipe. -/
inductive Frame
  | str (s : String)
  | bytes (b : Bytes)
deriving DecidableEq, Repr

/-- ZBeacon.publish (lines 83-85): sends the PUBLISH frame and the
payload frame unconditionally; no length validation is performed. -/
def ZBeacon.publish (transmit : Bytes) : List Frame :=
  [Frame.str "PUBLISH", Frame.bytes transmit]

/-- ZBeacon.subscribe (lines 92-98): sends the SUBSCRIBE frame (with
SNDMORE), then sends the filter frame only if its length is not
greater than BEACON_MAX; otherwise it only logs. -/
def ZBeacon.subscribe (f : Bytes) : List Frame :=
  Frame.str "SUBSCRIBE" ::
    (if BEACON_MAX < f.length then [] else [Frame.bytes f])

/-- One entry of the list netifaces.ifaddresses(name)[AF_INET]: the
optional "addr" and "netmask" keys. -/
structure AddrSet where
  addr : Option String
  netmask : Option String
deriving DecidableEq, Repr

/-- One network interface as seen through netifaces: its name and its
AF_INET address sets (none when AF_INET is absent from the settings). -/
structure Iface where
  name : String
  inet : Option (List AddrSet)
deriving DecidableEq, Repr

/-- The data recorded when an interface qualifies (lines 201-204). -/
structure Binding where
  interface_name : String
  addr : String
  netmask : String
deriving DecidableEq, Repr

/-- Python truthiness of the optional AF_INET list:
`if not inet_addresses: continue` (line 166) skips None and []. -/
def pyListTruthy : Option (List AddrSet) → Bool
  | none => false
  | some l => !l.isEmpty

/-- Python truthiness of an optional string: None and "" are falsy
(`if not address_str or not netmask_str` at line 180). -/
def pyStrTruthy : Option String → Bool
  | none => false
  | some s => !(s == "")

/-- The inner loop over address sets (lines 174-178): take the first
set that has both the "addr" and the "netmask" keys, then break. -/
def firstAddrPair : List AddrSet → Option (Option String × Option String)
  | [] => none
  | a :: rest =>
    if a.addr.isSome ∧ a.netmask.isSome then some (a.addr, a.netmask)
    else firstAddrPair rest

/-- The interface scan of ZBeaconAgent.__init__ (lines 150-212):
first interface with an AF_INET address/netmask pair whose values are
truthy and which is not a loopback device wins.  `isLoopback`
abstracts `ipaddress.ip_interface(addr/netmask).is_loopback`. -/
def selectInterface (isLoopback : String → String → Bool) :
    List Iface → Option Binding
  | [] => none
  | i :: rest =>
    if pyListTruthy i.inet then
      match firstAddrPair (i.inet.getD []) with
      | none => selectInterface isLoopback rest
      | some (a, m) =>
        if pyStrTruthy a ∧ pyStrTruthy m then
          if isLoopback (a.getD "") (m.getD "") then selectInterface isLoopback rest
          else some ⟨i.name, a.getD "", m.getD ""⟩
        else selectInterface isLoopback rest
    else selectInterface isLoopback rest

/-- Observable steps of the tail of ZBeaconAgent.__init__. -/
inductive StartupEvent
  | logNoIface
  | initSocket
  | sendAddr (s : String)
  | enterLoop
deriving DecidableEq, Repr

/-- str(self.address): Python renders None as the string "None". -/
def pyStrOfAddr : Option Binding → String
  | none => "None"
  | some b => b.addr

/-- Lines 214-220 of ZBeaconAgent.__init__: after the scan, when no
address was found only an error is logged; the constructor then
unconditionally runs _init_socket(), reports str(self.address) over
the pipe and enters run(). -/
def agentStartup (sel : Option Binding) : List StartupEvent :=
  (if sel.isNone then [StartupEvent.logNoIface] else []) ++
    [StartupEvent.initSocket,
     StartupEvent.sendAddr (pyStrOfAddr sel),
     StartupEvent.enterLoop]


/-! ## Theorems about the embedding -/

/-- Claim C1, counterexample: with filter b'\x01\x02' installed via
SUBSCRIBE, the datagram b'\x03\x04' does not start with the filter
(and is no longer than it), yet recv delivers it: the filter check at
line 374 only runs when the data is strictly longer than the filter. -/
theorem C1_short_mismatch_delivered :
    ([3, 4] : Bytes).take ([1, 2] : Bytes).length ≠ ([1, 2] : Bytes) ∧
    ZBeaconAgent.recv ((ZBeaconAgent.api_command 0 initState (Command.SUBSCRIBE [1, 2])).1)
      (.ok ("10.0.0.9", [3, 4]))
      = Except.ok (RecvOutcome.delivered "10.0.0.9" [3, 4]) := by
  exact ⟨by decide, by decide⟩

/-- Claim C1 (amended): with a non-empty filter F set, a datagram D
strictly longer than F is discarded when D's F-length prefix differs
from F and goes on to the echo check when it matches; a datagram no
longer than F skips the filter check entirely and goes straight to the
echo check (so a short non-matching datagram is still delivered). -/
theorem C1_filter_behavior (st : AgentState) (peer : String) (data F : Bytes)
    (hF : st.filterF = some F) (hne : F ≠ []) :
    (F.length < data.length → data.take F.length ≠ F →
        ZBeaconAgent.recv st (.ok (peer, data)) = Except.ok RecvOutcome.discarded)
  ∧ (F.length < data.length → data.take F.length = F →
        ZBeaconAgent.recv st (.ok (peer, data)) = recvEcho st peer data)
  ∧ (data.length ≤ F.length →
        ZBeaconAgent.recv st (.ok (peer, data)) = recvEcho st peer data) := by
  have hE : (!F.isEmpty) = true := by
    simpa [List.isEmpty_iff] using hne
  refine ⟨fun hlt hmm => ?_, fun hlt heq => ?_, fun hle => ?_⟩
  · simp [ZBeaconAgent.recv, hF, pyTruthy, hE, hlt, hmm]
  · simp [ZBeaconAgent.recv, hF, pyTruthy, hE, hlt, heq]
  · have hnlt : ¬ F.length < data.length := by omega
    simp [ZBeaconAgent.recv, hF, pyTruthy, hE, hnlt]

/-- Claim C1, witness for the amended statement: filter b'\x01\x02',
datagram b'\x09\x09\x09' is longer and mismatching, so discarded. -/
theorem C1_filter_behavior_witness :
    ZBeaconAgent.recv { initState with filterF := some [1, 2] } (.ok ("peer", [9, 9, 9]))
      = Except.ok RecvOutcome.discarded :=
  (C1_filter_behavior { initState with filterF := some [1, 2] } "peer" [9, 9, 9] [1, 2]
      rfl (by decide)).1 (by decide) (by decide)

/-- Claim C2: SUBSCRIBE(b'\x01') followed by UNSUBSCRIBE leaves the
receive filter in place, because UNSUBSCRIBE (line 343) assigns None
to the attribute `filter` while recv reads `_filter`; a datagram that
mismatches the old filter is still discarded, so accept-all behavior
is not restored (the claim describes the evident intent; the code's
attribute slip makes UNSUBSCRIBE a no-op). -/
theorem C2_unsubscribe_is_noop :
    ((ZBeaconAgent.api_command 0
        ((ZBeaconAgent.api_command 0 initState (Command.SUBSCRIBE [1])).1)
        Command.UNSUBSCRIBE).1).filterF = some [1]
  ∧ ZBeaconAgent.recv
      ((ZBeaconAgent.api_command 0
        ((ZBeaconAgent.api_command 0 initState (Command.SUBSCRIBE [1])).1)
        Command.UNSUBSCRIBE).1)
      (.ok ("10.0.0.9", [2, 3]))
      = Except.ok RecvOutcome.discarded := by
  exact ⟨rfl, by decide⟩

/-- Claim C3, counterexample: a 256-byte payload passed to the
facade's publish is not rejected; both frames, payload included, are
sent to the Agent (ZBeacon.publish performs no length check). -/
theorem C3_publish_not_validated :
    BEACON_MAX < (List.replicate 256 0).length ∧
    ZBeacon.publish (List.replicate 256 0)
      = [Frame.str "PUBLISH", Frame.bytes (List.replicate 256 0)] := by
  exact ⟨by decide, rfl⟩

/-- Claim C3 (amended): only subscribe validates size - a filter
longer than BEACON_MAX is rejected at the facade (the filter frame is
never sent), a filter within the bound is forwarded; publish forwards
any payload unchecked, and the agent's timed send transmits whatever
payload is stored, so datagrams larger than 255 bytes can be sent on
the UDP socket. -/
theorem C3_size_validation :
    (∀ f : Bytes, BEACON_MAX < f.length → ZBeacon.subscribe f = [Frame.str "SUBSCRIBE"])
  ∧ (∀ f : Bytes, f.length ≤ BEACON_MAX →
        ZBeacon.subscribe f = [Frame.str "SUBSCRIBE", Frame.bytes f])
  ∧ (∀ t : Bytes, ZBeacon.publish t = [Frame.str "PUBLISH", Frame.bytes t])
  ∧ (∀ st : AgentState, ∀ i : LoopIn, i.pipeReady = false → i.udpReady = false →
        i.sendA1 = Except.ok () → pyTruthy st.transmit = true → st.ping_at ≤ i.nowSend →
        (loopIter st i).2.2 = some (st.transmit.getD [])) := by
  refine ⟨fun f hf => ?_, fun f hf => ?_, fun t => rfl, ?_⟩
  · simp [ZBeacon.subscribe, hf]
  · simp [ZBeacon.subscribe, Nat.not_lt_of_ge hf]
  · intro st i hp hu ha ht hping
    simp [loopIter, hp, hu, ht, hping, ZBeaconAgent.send, ha]

/-- Claim C3, witness for the amended statement: a 256-byte filter is
cut off at the facade, and an agent holding a 256-byte payload sends
it on the UDP socket. -/
theorem C3_size_validation_witness :
    ZBeacon.subscribe (List.replicate 256 0) = [Frame.str "SUBSCRIBE"] ∧
    (loopIter { initState with transmit := some (List.replicate 256 0) }
      { nowPoll := 0, pipeReady := false, cmd := Command.NOECHO, nowCmd := 0,
        udpReady := false, sockRead := Except.ok ("", []), nowSend := 0,
        sendA1 := Except.ok (), sendA2 := Except.ok (), nowResched := 0 }).2.2
      = some (List.replicate 256 0) := by
  refine ⟨C3_size_validation.1 _ (by decide), ?_⟩
  exact C3_size_validation.2.2.2 _ _ rfl rfl rfl (by decide) (by decide)

/-- Claim C5: with only a loopback interface available the scan finds
nothing, yet the constructor tail still runs _init_socket, reports the
string "None" as its address and enters the event loop - startup is
not a terminal failure as the claim (and the spec) require. -/
theorem C5_startup_proceeds_without_iface :
    selectInterface (fun a m => a == "127.0.0.1")
      [⟨"lo", some [⟨some "127.0.0.1", some "255.0.0.0"⟩]⟩] = none
  ∧ agentStartup none
      = [StartupEvent.logNoIface, StartupEvent.initSocket,
         StartupEvent.sendAddr "None", StartupEvent.enterLoop]
  ∧ StartupEvent.enterLoop ∈ agentStartup none := by
  exact ⟨by decide, rfl, by decide⟩

/-- Claim C6: a socket error during recvfrom is logged but the handler
does not return; control reaches `peername = addr[0]` with `addr`
unbound, so recv raises (NameError) for every agent state, and the
exception escapes the event-loop iteration instead of being absorbed. -/
theorem C6_recv_error_raises :
    (∀ st : AgentState, ZBeaconAgent.recv st (Except.error ()) = Except.error PyError.nameError)
  ∧ (loopIter initState
      { nowPoll := 0, pipeReady := false, cmd := Command.NOECHO, nowCmd := 0,
        udpReady := true, sockRead := Except.error (), nowSend := 0,
        sendA1 := Except.ok (), sendA2 := Except.ok (), nowResched := 0 }).1
      = Except.error PyError.nameError := by
  exact ⟨fun st => rfl, by decide⟩

/-- Claim C7, counterexample: the agent starts with noecho already
true (line 127), so after PUBLISH(b'\x05') a received datagram equal
to the transmit payload is discarded even though no NoEcho command was
ever processed - echo suppression is not off by default. -/
theorem C7_default_noecho_discards :
    initState.noecho = true ∧
    ZBeaconAgent.recv ((ZBeaconAgent.api_command 0 initState (Command.PUBLISH [5])).1)
      (.ok ("10.0.0.9", [5]))
      = Except.ok RecvOutcome.discarded := by
  exact ⟨rfl, by decide⟩

/-- Claim C7 (amended): echo suppression is ON by default; no command
ever clears the flag (NOECHO redundantly re-enables it, so it is
one-way at true), and any filter-passing datagram byte-equal to the
active transmit payload is discarded from startup on. -/
theorem C7_noecho_default_on :
    initState.noecho = true
  ∧ (∀ now : ℤ, ∀ st : AgentState, ∀ cmd : Command, st.noecho = true →
        ((ZBeaconAgent.api_command now st cmd).1).noecho = true)
  ∧ (∀ st : AgentState, ∀ peer : String, ∀ data : Bytes,
        st.noecho = true → st.filterF = none → st.transmit = some data →
        ZBeaconAgent.recv st (.ok (peer, data)) = Except.ok RecvOutcome.discarded) := by
  refine ⟨rfl, fun now st cmd h => ?_, fun st peer data hn hf ht => ?_⟩
  · cases cmd <;> simp_all [ZBeaconAgent.api_command]
  · simp [ZBeaconAgent.recv, hf, pyTruthy, recvEcho, hn, ht]

/-- Claim C7, witness for the amended statement: an agent transmitting
b'\x05' discards an identical received datagram without any NoEcho
command having been sent. -/
theorem C7_noecho_default_on_witness :
    ZBeaconAgent.recv { initState with transmit := some [5] } (.ok ("q", [5]))
      = Except.ok RecvOutcome.discarded :=
  C7_noecho_default_on.2.2 { initState with transmit := some [5] } "q" [5] rfl rfl rfl

/-- Claim C9: the send path makes at most two sendto attempts: a
successful first attempt ends the call with no reinitialization; a
failed first attempt triggers exactly one _init_socket re-run and one
retry whose outcome - success or the propagating second error - is
final, and a double failure escapes the loop iteration as an OSError. -/
theorem C9_send_single_retry :
    (∀ a2 : Except Unit Unit,
        ZBeaconAgent.send (Except.ok ()) a2 = ⟨1, false, Except.ok ()⟩)
  ∧ (∀ a2 : Except Unit Unit,
        ZBeaconAgent.send (Except.error ()) a2 = ⟨2, true, a2⟩)
  ∧ (loopIter { initState with transmit := some [7] }
      { nowPoll := 0, pipeReady := false, cmd := Command.NOECHO, nowCmd := 0,
        udpReady := false, sockRead := Except.ok ("", []), nowSend := 0,
        sendA1 := Except.error (), sendA2 := Except.error (), nowResched := 0 }).1
      = Except.error PyError.osError := by
  exact ⟨fun a2 => rfl, fun a2 => rfl, by decide⟩

/-- Claim C4: after INTERVAL 1000 then PUBLISH b'\x07' at time 0 the
next poll timeout is 0 and the send fires in the very next pass with
no wait (the claim's immediate-first-send half holds), but the
rescheduling at line 415 adds the raw interval value to time.time(),
which is in seconds: ping_at becomes 1000 and the next poll is given
1000000 milliseconds, not the 1000 milliseconds the claim (and the
facade's own millisecond documentation at line 73) prescribe. -/
theorem C4_interval_units_bug :
    loopTimeout ((ZBeaconAgent.api_command 0
        ((ZBeaconAgent.api_command 0 initState (Command.INTERVAL 1000)).1)
        (Command.PUBLISH [7])).1) 0 = 0
  ∧ loopIter ((ZBeaconAgent.api_command 0
        ((ZBeaconAgent.api_command 0 initState (Command.INTERVAL 1000)).1)
        (Command.PUBLISH [7])).1)
      { nowPoll := 0, pipeReady := false, cmd := Command.NOECHO, nowCmd := 0,
        udpReady := false, sockRead := Except.ok ("", []), nowSend := 0,
        sendA1 := Except.ok (), sendA2 := Except.ok (), nowResched := 0 }
      = (Except.ok ({ initState with interval := 1000, transmit := some [7], ping_at := 1000 },
          false), [], some [7])
  ∧ pollArgMs { initState with interval := 1000, transmit := some [7], ping_at := 1000 } 0
      = 1000000
  ∧ (1000000 : ℤ) ≠ 1000 := by
  refine ⟨by decide, by decide, by decide, by decide⟩

/-- Every pipe message a loop iteration emits after the command phase
is a peer announcement: the iteration's message list is the command
phase's messages followed by announcements only. -/
theorem loopIter_msgs_decomp (st : AgentState) (i : LoopIn) :
    ∃ ann : List PipeMsg, (∀ m ∈ ann, ∃ p d, m = PipeMsg.announcement p d) ∧
      (loopIter st i).2.1 =
        (if i.pipeReady then (ZBeaconAgent.api_command i.nowCmd st i.cmd).2 else []) ++ ann := by
  rw [show (if i.pipeReady then (ZBeaconAgent.api_command i.nowCmd st i.cmd).2 else [])
        = (if i.pipeReady then ZBeaconAgent.api_command i.nowCmd st i.cmd else (st, [])).2
      from by cases hp : i.pipeReady <;> simp]
  simp only [loopIter]
  generalize (if i.pipeReady then ZBeaconAgent.api_command i.nowCmd st i.cmd else (st, [])) = P
  cases hu : i.udpReady
  · refine ⟨[], by simp, ?_⟩
    (repeat' split) <;> first | rfl | simp_all
  · cases hr : ZBeaconAgent.recv P.1 i.sockRead with
    | error e =>
      refine ⟨[], by simp, ?_⟩
      simp [hr]
    | ok o =>
      cases o with
      | discarded =>
        refine ⟨[], by simp, ?_⟩
        simp only [hr]
        (repeat' split) <;> first | rfl | simp_all
      | delivered p d =>
        refine ⟨[PipeMsg.announcement p d], by simp, ?_⟩
        simp only [hr]
        (repeat' split) <;> first | rfl | simp_all

/-- When a loop iteration completes without an exception, its break
flag is the terminated flag of the post-command state: the loop exits
at the end of exactly the iteration whose command set the flag. -/
theorem loopIter_ok_brk (st : AgentState) (i : LoopIn) (st' : AgentState) (brk : Bool)
    (msgs : List PipeMsg) (sent : Option Bytes)
    (h : loopIter st i = (Except.ok (st', brk), msgs, sent)) :
    brk = (if i.pipeReady then (ZBeaconAgent.api_command i.nowCmd st i.cmd).1 else st).terminated := by
  rw [show (if i.pipeReady then (ZBeaconAgent.api_command i.nowCmd st i.cmd).1 else st)
        = (if i.pipeReady then ZBeaconAgent.api_command i.nowCmd st i.cmd else (st, [])).1
      from by cases hp : i.pipeReady <;> simp]
  simp only [loopIter] at h
  generalize hP : (if i.pipeReady then ZBeaconAgent.api_command i.nowCmd st i.cmd
      else (st, [])) = P at h ⊢
  cases hu : i.udpReady <;> simp only [hu] at h
  · (repeat' split at h) <;>
      first
        | (simp only [Prod.mk.injEq, Except.ok.injEq] at h
           obtain ⟨⟨h1, h2⟩, -, -⟩ := h
           subst h1
           exact h2.symm)
        | simp at h
  · cases hr : ZBeaconAgent.recv P.1 i.sockRead with
    | error e => simp [hr] at h
    | ok o =>
      simp only [hr] at h
      (repeat' split at h) <;>
        first
          | (simp only [Prod.mk.injEq, Except.ok.injEq] at h
             obtain ⟨⟨h1, h2⟩, -, -⟩ := h
             subst h1
             exact h2.symm)
          | simp at h

/-- Claim C8, counterexample: when the poll reports the pipe (holding
$TERM) and the UDP socket ready in the same iteration, api_command
sends the OK acknowledgment first, and recv then still delivers a
PeerAnnouncement on the control channel after the acknowledgment,
before the loop breaks. -/
theorem C8_announcement_after_ack :
    loopIter initState
      { nowPoll := 0, pipeReady := true, cmd := Command.TERM, nowCmd := 0,
        udpReady := true, sockRead := Except.ok ("10.0.0.9", [1, 2, 3]),
        nowSend := 0, sendA1 := Except.ok (), sendA2 := Except.ok (), nowResched := 0 }
      = (Except.ok ({ initState with terminated := true }, true),
         [PipeMsg.ok, PipeMsg.announcement "10.0.0.9" [1, 2, 3]], none) := by
  decide

/-- Claim C8 (amended): an iteration that processes $TERM and
completes sends exactly one OK acknowledgment, as the first control
message of the iteration, and exits the loop at the end of that same
iteration; every later message of the iteration is a peer
announcement (a datagram ready in the same poll may thus still be
delivered after the acknowledgment, but none after the iteration). -/
theorem C8_term_ack_then_exit (st : AgentState) (i : LoopIn) (st' : AgentState)
    (brk : Bool) (msgs : List PipeMsg) (sent : Option Bytes)
    (hp : i.pipeReady = true) (hc : i.cmd = Command.TERM)
    (h : loopIter st i = (Except.ok (st', brk), msgs, sent)) :
    brk = true ∧ msgs.head? = some PipeMsg.ok ∧ msgs.count PipeMsg.ok = 1
  ∧ ∀ m ∈ msgs.tail, ∃ p d, m = PipeMsg.announcement p d := by
  have hbrk := loopIter_ok_brk st i st' brk msgs sent h
  obtain ⟨ann, hann, hmsgs⟩ := loopIter_msgs_decomp st i
  rw [h] at hmsgs
  simp only [hp, hc, if_true, ZBeaconAgent.api_command] at hbrk hmsgs
  have hcnt : ann.count PipeMsg.ok = 0 := by
    rw [List.count_eq_zero]
    intro hmem
    obtain ⟨p, d, he⟩ := hann _ hmem
    exact PipeMsg.noConfusion he
  subst hmsgs
  refine ⟨by simpa using hbrk, rfl, ?_, by simpa using hann⟩
  simpa [List.count_cons] using hcnt

/-- Claim C8, witness for the amended statement, at an iteration that
processes $TERM with the UDP socket idle: the message list is exactly
the one acknowledgment and the loop breaks. -/
theorem C8_term_ack_then_exit_witness :
    (true : Bool) = true ∧ ([PipeMsg.ok] : List PipeMsg).head? = some PipeMsg.ok
  ∧ ([PipeMsg.ok] : List PipeMsg).count PipeMsg.ok = 1
  ∧ ∀ m ∈ ([PipeMsg.ok] : List PipeMsg).tail, ∃ p d, m = PipeMsg.announcement p d :=
  C8_term_ack_then_exit initState
    { nowPoll := 0, pipeReady := true, cmd := Command.TERM, nowCmd := 0,
      udpReady := false, sockRead := Except.ok ("", []), nowSend := 0,
      sendA1 := Except.ok (), sendA2 := Except.ok (), nowResched := 0 }
    { initState with terminated := true } true [PipeMsg.ok] none rfl rfl (by decide)

/-- No api command other than a non-empty PUBLISH can make the
transmit payload truthy: SILENCE clears it, PUBLISH of b'' stores a
falsy value, everything else leaves it unchanged. -/
theorem api_keeps_transmit_falsy (now : ℤ) (st : AgentState) (cmd : Command)
    (hst : pyTruthy st.transmit = false) (hc : cmd.publishesNonEmpty = false) :
    pyTruthy ((ZBeaconAgent.api_command now st cmd).1).transmit = false := by
  cases cmd <;> simp_all [ZBeaconAgent.api_command, Command.publishesNonEmpty, pyTruthy]

/-- When the post-command transmit test fails, the iteration performs
no send: the timed-send branch at line 413 is skipped, the UDP output
is none and the resulting state is exactly the post-command state. -/
theorem loopIter_skip_send (st : AgentState) (i : LoopIn)
    (hcond : ¬ (pyTruthy ((if i.pipeReady then ZBeaconAgent.api_command i.nowCmd st i.cmd
        else (st, [])).1).transmit = true ∧
        ((if i.pipeReady then ZBeaconAgent.api_command i.nowCmd st i.cmd
        else (st, [])).1).ping_at ≤ i.nowSend)) :
    (loopIter st i).2.2 = none ∧
    ∀ st' brk msgs sent, loopIter st i = (Except.ok (st', brk), msgs, sent) →
      st' = (if i.pipeReady then ZBeaconAgent.api_command i.nowCmd st i.cmd
        else (st, [])).1 := by
  simp only [loopIter]
  generalize hP : (if i.pipeReady then ZBeaconAgent.api_command i.nowCmd st i.cmd
      else (st, [])) = P at hcond ⊢
  constructor
  · (repeat' split) <;> first | rfl | simp_all
  · intro st' brk msgs sent hEq
    (repeat' split at hEq) <;>
      first
        | (simp only [Prod.mk.injEq, Except.ok.injEq] at hEq
           exact absurd (by assumption) hcond)
        | (simp only [Prod.mk.injEq, Except.ok.injEq] at hEq
           exact hEq.1.1.symm)
        | simp at hEq

/-- An iteration whose incoming transmit payload is falsy and whose
command is not a non-empty PUBLISH sends nothing and leaves the
transmit payload falsy. -/
theorem loopIter_falsy_no_send (st : AgentState) (i : LoopIn)
    (hst : pyTruthy st.transmit = false) (hc : i.cmd.publishesNonEmpty = false) :
    (loopIter st i).2.2 = none ∧
    ∀ st' brk msgs sent, loopIter st i = (Except.ok (st', brk), msgs, sent) →
      pyTruthy st'.transmit = false := by
  have h1 : pyTruthy ((if i.pipeReady then ZBeaconAgent.api_command i.nowCmd st i.cmd
      else (st, [])).1).transmit = false := by
    cases hp : i.pipeReady
    · simpa using hst
    · simpa using api_keeps_transmit_falsy i.nowCmd st i.cmd hst hc
  obtain ⟨h2, h3⟩ := loopIter_skip_send st i (by simp [h1])
  refine ⟨h2, fun st' brk msgs sent hEq => ?_⟩
  rw [h3 st' brk msgs sent hEq]
  exact h1

/-- A run whose initial transmit payload is falsy and whose command
stream contains no non-empty PUBLISH never sends a datagram. -/
theorem loopRun_falsy_no_send (st : AgentState) (ins : List LoopIn)
    (hst : pyTruthy st.transmit = false)
    (hall : ∀ i ∈ ins, i.cmd.publishesNonEmpty = false) :
    (loopRun st ins).2.2 = [] := by
  induction ins generalizing st with
  | nil => rfl
  | cons i rest ih =>
    have hi := hall i (List.mem_cons_self i rest)
    have hrest : ∀ j ∈ rest, j.cmd.publishesNonEmpty = false :=
      fun j hj => hall j (List.mem_cons_of_mem i hj)
    obtain ⟨hsent, hpres⟩ := loopIter_falsy_no_send st i hst hi
    rcases hli : loopIter st i with ⟨res, msgs, sent⟩
    rw [hli] at hsent
    have hs2 : sent = none := hsent
    subst hs2
    cases res with
    | error e => simp [loopRun, hli]
    | ok pr =>
      obtain ⟨st1, brk⟩ := pr
      have hst1 : pyTruthy st1.transmit = false := hpres st1 brk msgs none hli
      cases brk
      · simp [loopRun, hli, ih st1 hst1 hrest]
      · simp [loopRun, hli]

/-- Claim C10: PUBLISH of an empty payload stores b'' and forces
ping_at to now, but the loop treats the empty payload exactly as it
treats the cleared payload after SILENCE: the poll timeout is -1
(block indefinitely, no timed wakeup), and a run whose transmit
payload is falsy never sends a datagram as long as no non-empty
PUBLISH arrives. -/
theorem C10_empty_publish_is_silent :
    (∀ now : ℤ, ∀ st : AgentState,
        (ZBeaconAgent.api_command now st (Command.PUBLISH [])).1
          = { st with transmit := some [], ping_at := now })
  ∧ (∀ st : AgentState, ∀ now : ℤ,
        loopTimeout { st with transmit := some [] } now = -1
      ∧ loopTimeout { st with transmit := some [] } now
          = loopTimeout ((ZBeaconAgent.api_command now st Command.SILENCE).1) now)
  ∧ (∀ st : AgentState, ∀ ins : List LoopIn, pyTruthy st.transmit = false →
        (∀ i ∈ ins, i.cmd.publishesNonEmpty = false) →
        (loopRun st ins).2.2 = []) := by
  exact ⟨fun now st => rfl, fun st now => ⟨rfl, rfl⟩,
    fun st ins => loopRun_falsy_no_send st ins⟩

/-- Claim C10, witness: an agent that has just stored an empty PUBLISH
payload runs an iteration (processing an unrecognized command) without
sending any datagram. -/
theorem C10_empty_publish_is_silent_witness :
    (loopRun { initState with transmit := some [] }
      [{ nowPoll := 0, pipeReady := true, cmd := Command.UNKNOWN "X", nowCmd := 0,
         udpReady := false, sockRead := Except.ok ("", []), nowSend := 0,
         sendA1 := Except.ok (), sendA2 := Except.ok (), nowResched := 0 }]).2.2 = [] :=
  C10_empty_publish_is_silent.2.2 { initState with transmit := some [] } _
    (by decide) (by decide)
